import Mathlib

/-!
Verification of the OAuth broker of the google-tag-manager-mcp-server
repository, shallowly embedded in Lean 4.

The embedding covers:
 - the in-memory time-bounded key-value store (`src/lib/storage.ts`,
   `MemoryStorage` and the `oauth:*` helper functions);
 - the OAuth provider functions of `src/lib/oauth.ts`
   (`registerClient`, `createAuthorizationCode`, `completeAuthorization`,
   `exchangeCode`, `validateToken`, `getUpstreamAuthorizeUrl`);
 - the HTTP handlers `handleAuthorize` / `handleToken` of the main API
   handler, and the `authorize` case of the alternative JS handler.

Modelling conventions:
 - `Date.now()` (milliseconds) is threaded explicitly as a `now : Nat`
   argument wherever the source calls it;
 - randomness (`randomBytes(..).toString('base64url')`) is threaded as an
   explicit argument holding the generated string;
 - JSON serialization round-trips (`JSON.stringify` / `JSON.parse`) are the
   identity: the store holds typed values (`Val`), and a read under a key of
   the wrong type parses to `none`;
 - WHATWG `URL` query-parameter setting is modelled by `addQueryParams`
   (appending `?k=v&...` to the base, percent-encoding abstracted away);
 - the promise monad is erased: every function is a pure function from the
   store (and the explicit time/randomness inputs) to its result and the
   updated store.
-/

/-- Embeds `AuthRequest` of `src/lib/oauth.ts`: the parsed authorization request. -/
structure AuthRequest where
  clientId : String
  redirectUri : String
  scope : List String
  state : Option String
  responseType : String
  codeChallenge : Option String
  codeChallengeMethod : Option String
deriving DecidableEq, Repr

/-- Embeds `UserProps` of `src/lib/oauth.ts`: the identity attributes bound to a
token (subject id, display name, email, upstream access token, client id). -/
structure UserProps where
  userId : String
  name : String
  email : String
  accessToken : String
  clientId : String
deriving DecidableEq, Repr

/-- Embeds `OAuthClient` of `src/lib/storage.ts`. -/
structure OAuthClient where
  clientId : String
  clientSecret : String
  redirectUris : List String
  name : String
  createdAt : Nat
deriving DecidableEq, Repr

/-- Embeds `OAuthToken` of `src/lib/storage.ts`.  The `props` field is
`Record<string, unknown>` in the source but always holds a `UserProps`
(it is written only by `exchangeCode` and read back by `validateToken`,
which casts it to `UserProps`). -/
structure OAuthToken where
  accessToken : String
  refreshToken : Option String
  userId : String
  clientId : String
  scope : List String
  expiresAt : Nat
  props : UserProps
deriving DecidableEq, Repr

/-- Embeds `OAuthGrant` of `src/lib/storage.ts`. -/
structure OAuthGrant where
  id : String
  userId : String
  clientId : String
  scope : List String
  createdAt : Nat
deriving DecidableEq, Repr

/-- The payload stored under `oauth:state:{code}` by
`createAuthorizationCode` in `src/lib/oauth.ts`:
`{ authRequest, userId, props, createdAt }`. -/
structure StateData where
  authRequest : AuthRequest
  userId : String
  props : UserProps
  createdAt : Nat
deriving DecidableEq, Repr

/-- The payload stored under `auth:{state}` by the `authorize` case of the
alternative JS handler: `{ clientId, redirectUri, state }`. -/
structure AuthEntry where
  clientId : String
  redirectUri : String
  state : String
deriving DecidableEq, Repr

/-- A typed view of the JSON strings held by the store.  The source stores
`JSON.stringify` of each record; parsing is modelled as the identity on the
matching constructor and `none` otherwise. -/
inductive Val where
  | client : OAuthClient → Val
  | token : OAuthToken → Val
  | grant : OAuthGrant → Val
  | state : StateData → Val
  | authEntry : AuthEntry → Val
deriving DecidableEq, Repr

/-- One entry of the in-memory `memoryStore` map:
`{ value: string; expiry?: number }`. -/
structure Entry where
  value : Val
  expiry : Option Nat
deriving DecidableEq, Repr

/-- The `memoryStore : Map<string, Entry>` of `src/lib/storage.ts`,
modelled as a partial map from keys to entries. -/
def Store := String → Option Entry

/-- The expiry computed by `MemoryStorage.set`: `if (ttl) item.expiry =
Date.now() + ttl * 1000` (a `ttl` of `0` is falsy in JS, so it stores no
expiry, like an absent `ttl`). -/
def expiryOf (ttl : Option Nat) (now : Nat) : Option Nat :=
  match ttl with
  | some t => if t ≠ 0 then some (now + t * 1000) else none
  | none => none

namespace MemoryStorage

/-- Embeds `MemoryStorage.set` of `src/lib/storage.ts`. -/
def set (s : Store) (key : String) (v : Val) (ttl : Option Nat) (now : Nat) : Store :=
  fun k => if k = key then some ⟨v, expiryOf ttl now⟩ else s k

/-- Embeds `MemoryStorage.delete` of `src/lib/storage.ts`. -/
def del (s : Store) (key : String) : Store :=
  fun k => if k = key then none else s k

/-- Embeds `MemoryStorage.get` of `src/lib/storage.ts`: returns the value, lazily
evicting an entry whose expiry has passed (`item.expiry && Date.now() >
item.expiry`: the comparison is strict, and an expiry of `0` is falsy). -/
def get (s : Store) (key : String) (now : Nat) : Option Val × Store :=
  match s key with
  | none => (none, s)
  | some item =>
    match item.expiry with
    | some e => if e ≠ 0 ∧ e < now then (none, del s key) else (some item.value, s)
    | none => (some item.value, s)

end MemoryStorage

/-- Parse a stored value as an `OAuthClient` (`JSON.parse` in
`getOAuthClient`). -/
def asClient : Val → Option OAuthClient
  | Val.client c => some c
  | _ => none

/-- Parse a stored value as an `OAuthToken` (`JSON.parse` in
`getOAuthToken`). -/
def asToken : Val → Option OAuthToken
  | Val.token t => some t
  | _ => none

/-- Parse a stored value as a `StateData` (`JSON.parse` in
`getOAuthState`). -/
def asState : Val → Option StateData
  | Val.state d => some d
  | _ => none

/-- Embeds `storeOAuthClient` of `src/lib/storage.ts`: stores under
`oauth:client:{clientId}`, no TTL. -/
def storeOAuthClient (s : Store) (c : OAuthClient) (now : Nat) : Store :=
  MemoryStorage.set s ("oauth:client:" ++ c.clientId) (Val.client c) none now

/-- Embeds `getOAuthClient` of `src/lib/storage.ts`. -/
def getOAuthClient (s : Store) (clientId : String) (now : Nat) :
    Option OAuthClient × Store :=
  let r := MemoryStorage.get s ("oauth:client:" ++ clientId) now
  (r.1.bind asClient, r.2)

/-- Embeds `deleteOAuthClient` of `src/lib/storage.ts`. -/
def deleteOAuthClient (s : Store) (clientId : String) : Store :=
  MemoryStorage.del s ("oauth:client:" ++ clientId)

/-- The TTL computed by `storeOAuthToken`:
`Math.floor((token.expiresAt - Date.now()) / 1000)` (floor division on a
possibly negative difference). -/
def tokenTtl (expiresAt now : Nat) : Int :=
  Int.fdiv ((expiresAt : Int) - (now : Int)) 1000

/-- Embeds `storeOAuthToken` of `src/lib/storage.ts`: stores the record under both
`oauth:token:{accessToken}` and `oauth:user:{userId}:{clientId}`, with TTL
`ttl > 0 ? ttl : undefined`. -/
def storeOAuthToken (s : Store) (t : OAuthToken) (now : Nat) : Store :=
  let ttl := tokenTtl t.expiresAt now
  let ttlArg : Option Nat := if 0 < ttl then some ttl.toNat else none
  MemoryStorage.set
    (MemoryStorage.set s ("oauth:token:" ++ t.accessToken) (Val.token t) ttlArg now)
    ("oauth:user:" ++ (t.userId ++ (":" ++ t.clientId))) (Val.token t) ttlArg now

/-- Embeds `getOAuthToken` of `src/lib/storage.ts`. -/
def getOAuthToken (s : Store) (accessToken : String) (now : Nat) :
    Option OAuthToken × Store :=
  let r := MemoryStorage.get s ("oauth:token:" ++ accessToken) now
  (r.1.bind asToken, r.2)

/-- Embeds `storeOAuthGrant` of `src/lib/storage.ts`: stores under
`oauth:grant:{id}` and `oauth:user:{userId}:grant:{id}`, no TTL. -/
def storeOAuthGrant (s : Store) (g : OAuthGrant) (now : Nat) : Store :=
  MemoryStorage.set
    (MemoryStorage.set s ("oauth:grant:" ++ g.id) (Val.grant g) none now)
    ("oauth:user:" ++ (g.userId ++ (":grant:" ++ g.id))) (Val.grant g) none now

/-- Embeds `revokeGrant` of `src/lib/storage.ts`: deletes `oauth:grant:{grantId}`
and `oauth:user:{userId}:grant:{grantId}`. -/
def revokeGrant (s : Store) (grantId userId : String) : Store :=
  MemoryStorage.del
    (MemoryStorage.del s ("oauth:grant:" ++ grantId))
    ("oauth:user:" ++ (userId ++ (":grant:" ++ grantId)))

/-- Embeds `storeOAuthState` of `src/lib/storage.ts`: stores under
`oauth:state:{state}` with the given TTL (default 600 s). -/
def storeOAuthState (s : Store) (st : String) (d : StateData) (ttl : Nat) (now : Nat) :
    Store :=
  MemoryStorage.set s ("oauth:state:" ++ st) (Val.state d) (some ttl) now

/-- Embeds `getOAuthState` of `src/lib/storage.ts`: a read-and-delete ("take") —
whenever `get` finds data under `oauth:state:{state}`, the entry is deleted
before the parsed data is returned. -/
def getOAuthState (s : Store) (st : String) (now : Nat) :
    Option StateData × Store :=
  let r := MemoryStorage.get s ("oauth:state:" ++ st) now
  match r.1 with
  | some v => (asState v, MemoryStorage.del r.2 ("oauth:state:" ++ st))
  | none => (none, r.2)

/-- Embeds `generateClientId` of `src/lib/oauth.ts`: prepends `gtm_` to a freshly
generated random string (the randomness is the explicit `rand` argument). -/
def generateClientId (rand : String) : String := "gtm_" ++ rand

/-- Embeds `registerClient` of `src/lib/oauth.ts`.  `randId` and `randSecret` stand
for the two `generateCode` calls (`randomBytes(..).toString('base64url')`). -/
def registerClient (s : Store) (redirectUris : List String) (name : String)
    (randId randSecret : String) (now : Nat) : (String × String) × Store :=
  let clientId := generateClientId randId
  let clientSecret := randSecret
  let s1 := storeOAuthClient s
    { clientId := clientId, clientSecret := clientSecret,
      redirectUris := redirectUris, name := name, createdAt := now } now
  ((clientId, clientSecret), s1)

/-- Embeds `lookupClient` of `src/lib/oauth.ts`. -/
def lookupClient (s : Store) (clientId : String) (now : Nat) :
    Option OAuthClient × Store :=
  getOAuthClient s clientId now

/-- Embeds `createAuthorizationCode` of `src/lib/oauth.ts`: stores
`{authRequest, userId, props, createdAt}` under the freshly generated code
with a 300-second TTL; the generated code is the explicit `code` argument. -/
def createAuthorizationCode (s : Store) (authRequest : AuthRequest)
    (userId : String) (props : UserProps) (code : String) (now : Nat) : Store :=
  storeOAuthState s code
    { authRequest := authRequest, userId := userId, props := props, createdAt := now }
    300 now

/-- Model of WHATWG-URL query-parameter setting
(`new URL(u)` followed by `url.searchParams.set(k, v)` and `toString()`):
appends `?k1=v1&k2=v2&...` to the base URL.  Percent-encoding and merging
with a pre-existing query string are abstracted away. -/
def addQueryParams (base : String) (ps : List (String × String)) : String :=
  base ++ "?" ++ String.intercalate "&" (ps.map (fun p => p.1 ++ "=" ++ p.2))

/-- Embeds `completeAuthorization` of `src/lib/oauth.ts`: issues a code, records a
grant, and returns the client redirect `redirectUri?code=...&state=...`
(the `state` parameter only when the request carried one).  The generated
code and grant id are the explicit `code` / `grantId` arguments. -/
def completeAuthorization (s : Store) (request : AuthRequest) (userId : String)
    (scope : List String) (props : UserProps) (code grantId : String) (now : Nat) :
    String × Store :=
  let s1 := createAuthorizationCode s request userId props code now
  let s2 := storeOAuthGrant s1
    { id := grantId, userId := userId, clientId := request.clientId,
      scope := scope, createdAt := now } now
  let ps := [("code", code)] ++
    (match request.state with | some st => [("state", st)] | none => [])
  (addQueryParams request.redirectUri ps, s2)

/-- The success value of `exchangeCode` in `src/lib/oauth.ts`. -/
structure ExchangeResult where
  accessToken : String
  tokenType : String
  expiresIn : Nat
  scope : String
  props : UserProps
deriving DecidableEq, Repr

/-- Embeds `exchangeCode` of `src/lib/oauth.ts`: takes the code's state entry
(`getOAuthState` deletes on read), fails when it is absent or bound to a
different clientId, otherwise mints a bearer token with `expiresIn = 3600`
seconds.  The generated token is the explicit `newToken` argument. -/
def exchangeCode (s : Store) (code clientId : String) (now : Nat)
    (newToken : String) : Option ExchangeResult × Store :=
  let r := getOAuthState s code now
  match r.1 with
  | none => (none, r.2)
  | some stateData =>
    if stateData.authRequest.clientId ≠ clientId then (none, r.2)
    else
      let accessToken := newToken
      let expiresIn : Nat := 3600
      let s2 := storeOAuthToken r.2
        { accessToken := accessToken, refreshToken := none,
          userId := stateData.props.userId, clientId := clientId,
          scope := stateData.authRequest.scope,
          expiresAt := now + expiresIn * 1000, props := stateData.props } now
      (some { accessToken := accessToken, tokenType := "Bearer",
              expiresIn := expiresIn,
              scope := String.intercalate " " stateData.authRequest.scope,
              props := stateData.props }, s2)

/-- Embeds `validateToken` of `src/lib/oauth.ts`: looks the token up (respecting
the store's lazy TTL eviction) and additionally rejects it when
`token.expiresAt < Date.now()`. -/
def validateToken (s : Store) (accessToken : String) (now : Nat) :
    Option UserProps × Store :=
  let r := getOAuthToken s accessToken now
  match r.1 with
  | none => (none, r.2)
  | some t => if t.expiresAt < now then (none, r.2) else (some t.props, r.2)

/-- Embeds `getUpstreamAuthorizeUrl` of `src/lib/oauth.ts`. -/
def getUpstreamAuthorizeUrl (upstreamUrl scope clientId redirectUri st : String)
    (hostedDomain : Option String) : String :=
  addQueryParams upstreamUrl
    ([("client_id", clientId), ("redirect_uri", redirectUri),
      ("response_type", "code"), ("scope", scope), ("state", st),
      ("access_type", "offline"), ("prompt", "consent")] ++
     (match hostedDomain with | some hd => [("hd", hd)] | none => []))

/-- Embeds `GOOGLE_SCOPES` of the main API handler. -/
def GOOGLE_SCOPES : List String :=
  ["email", "profile",
   "https://www.googleapis.com/auth/tagmanager.manage.accounts",
   "https://www.googleapis.com/auth/tagmanager.edit.containers",
   "https://www.googleapis.com/auth/tagmanager.delete.containers",
   "https://www.googleapis.com/auth/tagmanager.edit.containerversions",
   "https://www.googleapis.com/auth/tagmanager.manage.users",
   "https://www.googleapis.com/auth/tagmanager.publish",
   "https://www.googleapis.com/auth/tagmanager.readonly"]

/-- The query parameters read by `parseAuthRequest`
(`url.searchParams.get(..)` returns `null` for an absent parameter,
modelled as `none`). -/
structure AuthorizeQuery where
  client_id : Option String
  redirect_uri : Option String
  scope : Option String
  state : Option String
  response_type : Option String
  code_challenge : Option String
  code_challenge_method : Option String
deriving DecidableEq, Repr

/-- JS `x || undefined` on a nullable string: `null` and `''` are falsy. -/
def jsOrUndefined (o : Option String) : Option String :=
  match o with
  | some v => if v = "" then none else some v
  | none => none

/-- JS falsiness `!x` of a possibly-absent string: `undefined`/`null` and
`''` are falsy. -/
def jsFalsy (o : Option String) : Bool :=
  match o with
  | some v => v = ""
  | none => true

/-- Embeds `parseAuthRequest` of `src/lib/oauth.ts`: defaults absent `client_id` /
`redirect_uri` to `''`, splits `scope` on spaces and drops empty pieces,
maps empty `state` / PKCE fields to `undefined`, and defaults
`response_type` to `code`. -/
def parseAuthRequest (q : AuthorizeQuery) : AuthRequest :=
  { clientId := q.client_id.getD ""
    redirectUri := q.redirect_uri.getD ""
    scope := ((q.scope.getD "").splitOn " ").filter (fun x => x ≠ "")
    state := jsOrUndefined q.state
    responseType := (jsOrUndefined q.response_type).getD "code"
    codeChallenge := jsOrUndefined q.code_challenge
    codeChallengeMethod := jsOrUndefined q.code_challenge_method }

/-- Model of `Buffer.from(JSON.stringify(authRequest)).toString('base64')`
in `handleAuthorize`: an injective serialization of the request carried as
the upstream `state` parameter (base64/JSON details abstracted away). -/
def encodeAuthRequest (ar : AuthRequest) : String :=
  String.intercalate "|"
    [ar.clientId, ar.redirectUri, String.intercalate " " ar.scope,
     ar.state.getD "", ar.responseType, ar.codeChallenge.getD "",
     ar.codeChallengeMethod.getD ""]

/-- The responses the `authorize` endpoint can produce. -/
inductive AuthorizeResp where
  | methodNotAllowed : AuthorizeResp
  | badRequest : String → AuthorizeResp
  | redirect302 : String → AuthorizeResp
deriving DecidableEq, Repr

/-- HTTP status of an `authorize` response. -/
def AuthorizeResp.status : AuthorizeResp → Nat
  | AuthorizeResp.methodNotAllowed => 405
  | AuthorizeResp.badRequest _ => 400
  | AuthorizeResp.redirect302 _ => 302

/-- Embeds `handleAuthorize` of the main API handler: rejects methods other than
GET/POST, returns 400 when `client_id` is missing, and otherwise issues a
302 to the upstream (Google) authorize URL, carrying the whole parsed
request, serialized, as the `state` parameter.  `envGoogleClientId` and
`hostedDomain` model `process.env.GOOGLE_CLIENT_ID` /
`process.env.HOSTED_DOMAIN`. -/
def handleAuthorize (method : String) (q : AuthorizeQuery) (s : Store)
    (baseUrl envGoogleClientId : String) (hostedDomain : Option String) :
    AuthorizeResp × Store :=
  if method ≠ "GET" ∧ method ≠ "POST" then (AuthorizeResp.methodNotAllowed, s)
  else
    let authRequest := parseAuthRequest q
    if authRequest.clientId = "" then
      (AuthorizeResp.badRequest "Invalid request: missing client_id", s)
    else
      (AuthorizeResp.redirect302 (getUpstreamAuthorizeUrl
        "https://accounts.google.com/o/oauth2/v2/auth"
        (String.intercalate " " GOOGLE_SCOPES)
        envGoogleClientId
        (baseUrl ++ "/api?path=callback")
        (encodeAuthRequest authRequest)
        hostedDomain), s)

/-- Embeds `getGoogleAuthUrl` of the alternative JS handler. -/
def getGoogleAuthUrl (baseUrl authState envGoogleClientId : String)
    (hostedDomain : Option String) : String :=
  addQueryParams "https://accounts.google.com/o/oauth2/v2/auth"
    ([("client_id", envGoogleClientId), ("redirect_uri", baseUrl ++ "/callback"),
      ("response_type", "code"),
      ("scope", String.intercalate " " GOOGLE_SCOPES), ("state", authState),
      ("access_type", "offline"), ("prompt", "consent")] ++
     (match hostedDomain with | some hd => [("hd", hd)] | none => []))

/-- The `authorize` case of the alternative JS handler: rejects when
`client_id` or `redirect_uri` is missing/empty in the query (defaulted to
`''` by `|| ''`), otherwise persists `{clientId, redirectUri, state}` under
`auth:{authState}` with a 600-second TTL and 302-redirects to the Google
authorize URL.  The generated state is the explicit `authState` argument. -/
def authorizeCaseJs (client_idQ redirect_uriQ stateQ : Option String)
    (s : Store) (now : Nat) (authState baseUrl envGoogleClientId : String)
    (hostedDomain : Option String) : AuthorizeResp × Store :=
  let clientId := client_idQ.getD ""
  let redirectUri := redirect_uriQ.getD ""
  let st := stateQ.getD ""
  if clientId = "" ∨ redirectUri = "" then
    (AuthorizeResp.badRequest "Missing client_id or redirect_uri", s)
  else
    let s1 := MemoryStorage.set s ("auth:" ++ authState)
      (Val.authEntry { clientId := clientId, redirectUri := redirectUri, state := st })
      (some 600) now
    (AuthorizeResp.redirect302
      (getGoogleAuthUrl baseUrl authState envGoogleClientId hostedDomain), s1)

/-- The POST body fields destructured by `handleToken`:
`const { grant_type, code, client_id, client_secret } = body`. -/
structure TokenRequestBody where
  grant_type : Option String
  code : Option String
  client_id : Option String
  client_secret : Option String
deriving DecidableEq, Repr

/-- The responses the token endpoint can produce.  The `ok` constructor
carries exactly the four fields of the 200 body:
`{access_token, token_type, expires_in, scope}`. -/
inductive TokenResp where
  | methodNotAllowed : TokenResp
  | err : String → TokenResp
  | ok : String → String → Nat → String → TokenResp
deriving DecidableEq, Repr

/-- HTTP status of a token response (`err` is always sent with
`res.status(400)`; `res.json` without an explicit status is 200). -/
def TokenResp.status : TokenResp → Nat
  | TokenResp.methodNotAllowed => 405
  | TokenResp.err _ => 400
  | TokenResp.ok _ _ _ _ => 200

/-- Embeds `handleToken` of the main API handler: POST only; 400
`unsupported_grant_type` unless `grant_type === 'authorization_code'`; 400
`invalid_request` when `code` or `client_id` is missing/empty; 400
`invalid_grant` when `exchangeCode` returns null; otherwise 200 with
`{access_token, token_type, expires_in, scope}`. -/
def handleToken (method : String) (body : TokenRequestBody) (s : Store)
    (now : Nat) (newToken : String) : TokenResp × Store :=
  if method ≠ "POST" then (TokenResp.methodNotAllowed, s)
  else if body.grant_type ≠ some "authorization_code" then
    (TokenResp.err "unsupported_grant_type", s)
  else if jsFalsy body.code || jsFalsy body.client_id then
    (TokenResp.err "invalid_request", s)
  else
    let r := exchangeCode s (body.code.getD "") (body.client_id.getD "") now newToken
    match r.1 with
    | none => (TokenResp.err "invalid_grant", r.2)
    | some res =>
      (TokenResp.ok res.accessToken res.tokenType res.expiresIn res.scope, r.2)

/-- A sample in-flight authorization request, issued for client
`clientA`, used by the concrete-instance theorems below. -/
def demoAuthRequest : AuthRequest :=
  { clientId := "clientA", redirectUri := "https://app.example/cb",
    scope := ["email", "profile"], state := some "xyz",
    responseType := "code", codeChallenge := none, codeChallengeMethod := none }

/-- A sample identity, used by the concrete-instance theorems below. -/
def demoProps : UserProps :=
  { userId := "user-1", name := "User One", email := "user@example.com",
    accessToken := "google-token", clientId := "clientA" }

/-- The state payload stored for `demoAuthRequest` at callback completion. -/
def demoState : StateData :=
  { authRequest := demoAuthRequest, userId := "user-1", props := demoProps,
    createdAt := 0 }

/-- A store holding exactly one authorization code, `codeX`, issued for
client `clientA` with the 300-second TTL of `createAuthorizationCode`
(expiry at 300000 ms). -/
def demoStore : Store :=
  fun k =>
    if k = "oauth:state:codeX" then some ⟨Val.state demoState, some 300000⟩
    else none

/-- The result a successful exchange of `codeX` by `clientA` at time 0
mints when the generated token is `tokenX`. -/
def demoResult : ExchangeResult :=
  { accessToken := "tokenX", tokenType := "Bearer", expiresIn := 3600,
    scope := "email profile", props := demoProps }

theorem MemoryStorage.set_apply_self (s : Store) (key : String) (v : Val)
    (ttl : Option Nat) (now : Nat) :
    MemoryStorage.set s key v ttl now key = some ⟨v, expiryOf ttl now⟩ := by
  simp [MemoryStorage.set]

theorem MemoryStorage.set_apply_ne (s : Store) (key : String) (v : Val)
    (ttl : Option Nat) (now : Nat) {k : String} (h : k ≠ key) :
    MemoryStorage.set s key v ttl now k = s k := by
  simp [MemoryStorage.set, h]

theorem MemoryStorage.del_apply_self (s : Store) (key : String) :
    MemoryStorage.del s key key = none := by
  simp [MemoryStorage.del]

theorem MemoryStorage.del_apply_ne (s : Store) (key : String) {k : String}
    (h : k ≠ key) : MemoryStorage.del s key k = s k := by
  simp [MemoryStorage.del, h]

/-- The value component of a store read, as a function of the entry under
the key alone. -/
theorem MemoryStorage.get_fst_eval (s : Store) (key : String) (now : Nat) :
    (MemoryStorage.get s key now).1 =
      match s key with
      | none => none
      | some item =>
        match item.expiry with
        | some e => if e ≠ 0 ∧ e < now then none else some item.value
        | none => some item.value := by
  unfold MemoryStorage.get
  cases h : s key with
  | none => rfl
  | some item =>
    obtain ⟨v, exp⟩ := item
    cases exp with
    | none => rfl
    | some e => by_cases hc : e ≠ 0 ∧ e < now <;> simp [hc]

/-- Two stores agreeing under a key produce the same read value there. -/
theorem MemoryStorage.get_fst_congr (s1 s2 : Store) (key : String) (now : Nat)
    (h : s1 key = s2 key) :
    (MemoryStorage.get s1 key now).1 = (MemoryStorage.get s2 key now).1 := by
  rw [MemoryStorage.get_fst_eval, MemoryStorage.get_fst_eval, h]

/-- Two strings differ when they extend prefixes that disagree at some
character position. -/
theorem key_ne_of_char_at (p q : String) (i : Nat) (c d : Char)
    (hp : p.data[i]? = some c) (hq : q.data[i]? = some d) (hcd : c ≠ d)
    (a b : String) : p ++ a ≠ q ++ b := by
  intro h
  have hdata : p.data ++ a.data = q.data ++ b.data := by
    have h2 := congrArg String.data h
    simpa [String.data_append] using h2
  have hip : i < p.data.length := by
    by_contra hn
    rw [List.getElem?_eq_none (Nat.le_of_not_lt hn)] at hp
    exact Option.noConfusion hp
  have hiq : i < q.data.length := by
    by_contra hn
    rw [List.getElem?_eq_none (Nat.le_of_not_lt hn)] at hq
    exact Option.noConfusion hq
  have h1 : (p.data ++ a.data)[i]? = some c := by
    rw [List.getElem?_append_left hip]; exact hp
  have h2 : (q.data ++ b.data)[i]? = some d := by
    rw [List.getElem?_append_left hiq]; exact hq
  rw [hdata, h2] at h1
  exact hcd (Option.some.inj h1).symm

theorem stateKey_ne_tokenKey (a b : String) :
    "oauth:state:" ++ a ≠ "oauth:token:" ++ b :=
  key_ne_of_char_at _ _ 6 's' 't' (by decide) (by decide) (by decide) a b

theorem stateKey_ne_userKey (a b : String) :
    "oauth:state:" ++ a ≠ "oauth:user:" ++ b :=
  key_ne_of_char_at _ _ 6 's' 'u' (by decide) (by decide) (by decide) a b

theorem tokenKey_ne_userKey (a b : String) :
    "oauth:token:" ++ a ≠ "oauth:user:" ++ b :=
  key_ne_of_char_at _ _ 6 't' 'u' (by decide) (by decide) (by decide) a b

theorem tokenKey_ne_clientKey (a b : String) :
    "oauth:token:" ++ a ≠ "oauth:client:" ++ b :=
  key_ne_of_char_at _ _ 6 't' 'c' (by decide) (by decide) (by decide) a b

theorem tokenKey_ne_grantKey (a b : String) :
    "oauth:token:" ++ a ≠ "oauth:grant:" ++ b :=
  key_ne_of_char_at _ _ 6 't' 'g' (by decide) (by decide) (by decide) a b

/-- Writing a token record never touches any `oauth:state:*` key. -/
theorem storeOAuthToken_apply_state (s : Store) (t : OAuthToken) (now : Nat)
    (a : String) :
    storeOAuthToken s t now ("oauth:state:" ++ a) = s ("oauth:state:" ++ a) := by
  unfold storeOAuthToken
  rw [MemoryStorage.set_apply_ne _ _ _ _ _ (stateKey_ne_userKey a _),
      MemoryStorage.set_apply_ne _ _ _ _ _ (stateKey_ne_tokenKey a _)]

/-- After any `getOAuthState` read, the entry under the code's state key is
gone: a found entry is deleted (take semantics), an expired one is evicted,
and a missing one stays missing. -/
theorem getOAuthState_consumes (s : Store) (st : String) (now : Nat) :
    ((getOAuthState s st now).2) ("oauth:state:" ++ st) = none := by
  unfold getOAuthState MemoryStorage.get
  cases h : s ("oauth:state:" ++ st) with
  | none => simpa using h
  | some item =>
    obtain ⟨v, exp⟩ := item
    cases exp with
    | none => simp [MemoryStorage.del]
    | some e =>
      by_cases hc : e ≠ 0 ∧ e < now <;> simp [hc, MemoryStorage.del]

/-- Reading a state key that is absent returns nothing and leaves the store
unchanged. -/
theorem getOAuthState_of_absent (s : Store) (st : String) (now : Nat)
    (h : s ("oauth:state:" ++ st) = none) :
    getOAuthState s st now = (none, s) := by
  unfold getOAuthState MemoryStorage.get
  simp [h]

/-- Exchanging a code whose state key is absent fails and leaves the store
unchanged. -/
theorem exchangeCode_of_absent (s : Store) (code cid : String) (now : Nat)
    (tok : String) (h : s ("oauth:state:" ++ code) = none) :
    exchangeCode s code cid now tok = (none, s) := by
  simp [exchangeCode, getOAuthState_of_absent s code now h]

/-- Every `exchangeCode` call — successful, client-mismatched, or on a
missing/expired code — leaves the code's state key absent. -/
theorem exchangeCode_consumes (s : Store) (code cid : String) (now : Nat)
    (tok : String) :
    ((exchangeCode s code cid now tok).2) ("oauth:state:" ++ code) = none := by
  cases hg : (getOAuthState s code now).1 with
  | none =>
    simpa [exchangeCode, hg] using getOAuthState_consumes s code now
  | some sd =>
    by_cases hc : sd.authRequest.clientId = cid
    · simpa [exchangeCode, hg, hc, storeOAuthToken_apply_state] using
        getOAuthState_consumes s code now
    · simpa [exchangeCode, hg, hc] using getOAuthState_consumes s code now

/-- Characterization of a successful exchange: the minted result and the
store obtained by persisting the token record over the consumed state. -/
theorem exchangeCode_success_eq (s : Store) (code cid : String) (now : Nat)
    (tok : String) (sd : StateData)
    (hg : (getOAuthState s code now).1 = some sd)
    (hcid : sd.authRequest.clientId = cid) :
    exchangeCode s code cid now tok =
      (some { accessToken := tok, tokenType := "Bearer", expiresIn := 3600,
              scope := String.intercalate " " sd.authRequest.scope,
              props := sd.props },
       storeOAuthToken (getOAuthState s code now).2
         { accessToken := tok, refreshToken := none, userId := sd.props.userId,
           clientId := cid, scope := sd.authRequest.scope,
           expiresAt := now + 3600 * 1000, props := sd.props } now) := by
  simp [exchangeCode, hg, hcid]

/-- Inversion of a successful exchange: the state entry existed and its
bound clientId matched, and the result is determined by that entry. -/
theorem exchangeCode_fst_success_inv (s : Store) (code cid : String)
    (now : Nat) (tok : String) (r : ExchangeResult)
    (h : (exchangeCode s code cid now tok).1 = some r) :
    ∃ sd : StateData, (getOAuthState s code now).1 = some sd ∧
      sd.authRequest.clientId = cid ∧
      r = { accessToken := tok, tokenType := "Bearer", expiresIn := 3600,
            scope := String.intercalate " " sd.authRequest.scope,
            props := sd.props } := by
  cases hg : (getOAuthState s code now).1 with
  | none => simp [exchangeCode, hg] at h
  | some sd =>
    by_cases hcid : sd.authRequest.clientId = cid
    · refine ⟨sd, rfl, hcid, ?_⟩
      rw [exchangeCode_success_eq s code cid now tok sd hg hcid] at h
      simpa using h.symm
    · simp [exchangeCode, hg, hcid] at h

/-- C1.  Authorization codes are single-use: once a call to `exchangeCode`
has succeeded on a code (stored at callback completion), every subsequent
`exchangeCode` call with the same code returns null, whatever clientId
(matching included), time, or fresh token value is presented — and it keeps
the code's state entry absent, so all later calls fail the same way. -/
theorem exchangeCode_single_use (s : Store) (code cid : String) (now : Nat)
    (tok : String) (r : ExchangeResult)
    (h : (exchangeCode s code cid now tok).1 = some r) :
    ∀ (cid2 : String) (now2 : Nat) (tok2 : String),
      (exchangeCode (exchangeCode s code cid now tok).2 code cid2 now2 tok2).1
        = none ∧
      ((exchangeCode (exchangeCode s code cid now tok).2 code cid2 now2 tok2).2)
        ("oauth:state:" ++ code) = none := by
  intro cid2 now2 tok2
  have habs : ((exchangeCode s code cid now tok).2) ("oauth:state:" ++ code) = none :=
    exchangeCode_consumes s code cid now tok
  have h2 := exchangeCode_of_absent _ code cid2 now2 tok2 habs
  rw [h2]
  exact ⟨rfl, habs⟩

/-- C1 witness: in the one-code demo store, a first exchange of `codeX` by
the matching client succeeds, and an immediate retry by the same client
returns null. -/
theorem exchangeCode_single_use_witness :
    (exchangeCode demoStore "codeX" "clientA" 0 "tokenX").1 = some demoResult ∧
    (exchangeCode (exchangeCode demoStore "codeX" "clientA" 0 "tokenX").2
        "codeX" "clientA" 1 "tokenY").1 = none := by
  have h : (exchangeCode demoStore "codeX" "clientA" 0 "tokenX").1 = some demoResult := by
    decide
  exact ⟨h, (exchangeCode_single_use demoStore "codeX" "clientA" 0 "tokenX"
    demoResult h "clientA" 1 "tokenY").1⟩

/-- C2.  A code bound to clientId `c1` fails redemption under any different
clientId `c2`, however much of its TTL remains: whenever the state entry is
still retrievable at the present time (i.e. unexpired), `exchangeCode` with
`c2 ≠ c1` returns null. -/
theorem exchangeCode_wrong_client_fails (s : Store) (code c1 c2 : String)
    (now : Nat) (tok : String) (sd : StateData)
    (hstate : (getOAuthState s code now).1 = some sd)
    (hc1 : sd.authRequest.clientId = c1) (hne : c2 ≠ c1) :
    (exchangeCode s code c2 now tok).1 = none := by
  have hmis : sd.authRequest.clientId ≠ c2 := by rw [hc1]; exact fun he => hne he.symm
  simp [exchangeCode, hstate, hmis]

/-- C2 witness: `codeX` was issued to `clientA`; `clientB` presenting it at
time 0 (TTL intact) is refused. -/
theorem exchangeCode_wrong_client_fails_witness :
    (exchangeCode demoStore "codeX" "clientB" 0 "tok").1 = none :=
  exchangeCode_wrong_client_fails demoStore "codeX" "clientA" "clientB" 0 "tok"
    demoState (by decide) (by decide) (by decide)

/-- C3 counterexample.  The claim says a failed (client-mismatched)
redemption leaves the code entry in the store so the rightful client can
still redeem it.  On the code this is false: `getOAuthState` deletes on any
read, so after `clientB` unsuccessfully presents `codeX` (issued to
`clientA`), the entry is gone and `clientA`'s own later attempt — well
within the 300-second TTL — also returns null. -/
theorem failed_exchange_consumes_code_cex :
    (exchangeCode demoStore "codeX" "clientB" 0 "t1").1 = none ∧
    ((exchangeCode demoStore "codeX" "clientB" 0 "t1").2) "oauth:state:codeX" = none ∧
    (exchangeCode (exchangeCode demoStore "codeX" "clientB" 0 "t1").2
        "codeX" "clientA" 1000 "t2").1 = none := by
  refine ⟨by decide, by decide, by decide⟩

/-- C3 amended.  An authorization code entry is destroyed by the first
`exchangeCode` attempt that retrieves it — successful or not — or by TTL
expiry: in particular a failed redemption with a non-matching clientId also
consumes the entry, and every later exchange of the code (by the rightful
client included) returns null. -/
theorem exchange_attempt_consumes_code (s : Store) (code cid : String)
    (now : Nat) (tok : String) (sd : StateData)
    (hstate : (getOAuthState s code now).1 = some sd) :
    ((exchangeCode s code cid now tok).2) ("oauth:state:" ++ code) = none ∧
    ∀ (cid2 : String) (now2 : Nat) (tok2 : String),
      (exchangeCode (exchangeCode s code cid now tok).2 code cid2 now2 tok2).1
        = none := by
  have habs := exchangeCode_consumes s code cid now tok
  refine ⟨habs, fun cid2 now2 tok2 => ?_⟩
  rw [exchangeCode_of_absent _ code cid2 now2 tok2 habs]

/-- C3 amended witness: after `clientB`'s failed attempt on `codeX`, the
entry is gone and `clientA` cannot redeem it either. -/
theorem exchange_attempt_consumes_code_witness :
    ((exchangeCode demoStore "codeX" "clientB" 0 "t1").2) ("oauth:state:" ++ "codeX")
      = none ∧
    (exchangeCode (exchangeCode demoStore "codeX" "clientB" 0 "t1").2
        "codeX" "clientA" 1000 "t2").1 = none := by
  obtain ⟨h1, h2⟩ := exchange_attempt_consumes_code demoStore "codeX" "clientB" 0 "t1"
    demoState (by decide)
  exact ⟨h1, h2 "clientA" 1000 "t2"⟩

/-- A token set to expire one hour from now gets a 3600-second storage TTL. -/
theorem tokenTtl_hour (now : Nat) : tokenTtl (now + 3600000) now = 3600 := by
  unfold tokenTtl
  have h1 : ((now + 3600000 : Nat) : Int) - (now : Int) = 3600000 := by
    push_cast; ring
  rw [h1]
  decide

/-- The entry `storeOAuthToken` leaves under the token-keyed slot. -/
theorem storeOAuthToken_apply_token (s : Store) (t : OAuthToken) (now : Nat) :
    storeOAuthToken s t now ("oauth:token:" ++ t.accessToken) =
      some ⟨Val.token t,
        expiryOf (if 0 < tokenTtl t.expiresAt now
          then some (tokenTtl t.expiresAt now).toNat else none) now⟩ := by
  unfold storeOAuthToken
  rw [MemoryStorage.set_apply_ne _ _ _ _ _ (tokenKey_ne_userKey _ _),
      MemoryStorage.set_apply_self]

/-- The value component of a store read on a key holding a known entry with
an expiry. -/
theorem get_fst_of_entry (s : Store) (key : String) (now : Nat) (v : Val)
    (e : Nat) (h : s key = some ⟨v, some e⟩) :
    (MemoryStorage.get s key now).1 = if e ≠ 0 ∧ e < now then none else some v := by
  rw [MemoryStorage.get_fst_eval, h]

/-- The value component of `getOAuthToken`. -/
theorem getOAuthToken_fst (s : Store) (ak : String) (now : Nat) :
    (getOAuthToken s ak now).1 =
      (MemoryStorage.get s ("oauth:token:" ++ ak) now).1.bind asToken := rfl

/-- The value component of `validateToken`, as a function of the token
record found under the token key. -/
theorem validateToken_fst_eval (s : Store) (ak : String) (now : Nat) :
    (validateToken s ak now).1 =
      match (MemoryStorage.get s ("oauth:token:" ++ ak) now).1.bind asToken with
      | none => none
      | some t => if t.expiresAt < now then none else some t.props := by
  unfold validateToken getOAuthToken
  cases h : (MemoryStorage.get s ("oauth:token:" ++ ak) now).1.bind asToken with
  | none => simp [h]
  | some t => by_cases hc : t.expiresAt < now <;> simp [h, hc]

/-- C4.  A token minted by a successful `exchangeCode` validates to exactly
the originally stored identity (`props`) at every instant strictly less
than `expiresIn` (3600) seconds after minting — with the token record still
carrying the originally granted scope set, whose space-join is the `scope`
returned at minting — and validates to null at every instant strictly after
3600 seconds. -/
theorem token_valid_until_expiry (s : Store) (code cid : String) (now : Nat)
    (tok : String) (r : ExchangeResult)
    (h : (exchangeCode s code cid now tok).1 = some r) :
    (∀ t : Nat, t < 3600 * 1000 →
      (validateToken (exchangeCode s code cid now tok).2 r.accessToken (now + t)).1
        = some r.props ∧
      ((getOAuthToken (exchangeCode s code cid now tok).2 r.accessToken (now + t)).1).map
          (fun tk => String.intercalate " " tk.scope) = some r.scope) ∧
    (∀ t : Nat, 3600 * 1000 < t →
      (validateToken (exchangeCode s code cid now tok).2 r.accessToken (now + t)).1
        = none) := by
  obtain ⟨sd, hg, hcid, hr⟩ := exchangeCode_fst_success_inv s code cid now tok r h
  have heq := exchangeCode_success_eq s code cid now tok sd hg hcid
  have hak : r.accessToken = tok := by rw [hr]
  have hprops : r.props = sd.props := by rw [hr]
  have hscope : r.scope = String.intercalate " " sd.authRequest.scope := by rw [hr]
  have hs2 : (exchangeCode s code cid now tok).2 =
      storeOAuthToken ((getOAuthState s code now).2)
        { accessToken := tok, refreshToken := none, userId := sd.props.userId,
          clientId := cid, scope := sd.authRequest.scope,
          expiresAt := now + 3600 * 1000, props := sd.props } now := by
    rw [heq]
  have hkey : (exchangeCode s code cid now tok).2 ("oauth:token:" ++ tok) =
      some ⟨Val.token
        { accessToken := tok, refreshToken := none, userId := sd.props.userId,
          clientId := cid, scope := sd.authRequest.scope,
          expiresAt := now + 3600 * 1000, props := sd.props },
        some (now + 3600 * 1000)⟩ := by
    rw [hs2]
    have hb := storeOAuthToken_apply_token ((getOAuthState s code now).2)
      { accessToken := tok, refreshToken := none, userId := sd.props.userId,
        clientId := cid, scope := sd.authRequest.scope,
        expiresAt := now + 3600 * 1000, props := sd.props } now
    simpa [tokenTtl_hour, expiryOf] using hb
  constructor
  · intro t ht
    have hcond : ¬((now + 3600 * 1000) ≠ 0 ∧ (now + 3600 * 1000) < now + t) := by
      omega
    have hget : (MemoryStorage.get ((exchangeCode s code cid now tok).2)
        ("oauth:token:" ++ tok) (now + t)).1 =
        some (Val.token
          { accessToken := tok, refreshToken := none, userId := sd.props.userId,
            clientId := cid, scope := sd.authRequest.scope,
            expiresAt := now + 3600 * 1000, props := sd.props }) := by
      rw [get_fst_of_entry _ _ _ _ _ hkey, if_neg hcond]
    constructor
    · rw [hak, validateToken_fst_eval, hget]
      have hexp : ¬(now + 3600 * 1000 < now + t) := by omega
      simp [asToken, hexp, hprops]
    · rw [hak, getOAuthToken_fst, hget]
      simp [asToken, hscope]
  · intro t ht
    have hcond : (now + 3600 * 1000) ≠ 0 ∧ (now + 3600 * 1000) < now + t := by
      omega
    have hget : (MemoryStorage.get ((exchangeCode s code cid now tok).2)
        ("oauth:token:" ++ tok) (now + t)).1 = none := by
      rw [get_fst_of_entry _ _ _ _ _ hkey, if_pos hcond]
    rw [hak, validateToken_fst_eval, hget]
    rfl

/-- C4 witness: the token minted for `codeX` validates to the demo identity
1 second after minting and to null 3601 seconds after. -/
theorem token_valid_until_expiry_witness :
    (validateToken (exchangeCode demoStore "codeX" "clientA" 0 "tokenX").2
        "tokenX" 1000).1 = some demoProps ∧
    (validateToken (exchangeCode demoStore "codeX" "clientA" 0 "tokenX").2
        "tokenX" 3601000).1 = none := by
  have h : (exchangeCode demoStore "codeX" "clientA" 0 "tokenX").1 = some demoResult := by
    decide
  obtain ⟨h1, h2⟩ := token_valid_until_expiry demoStore "codeX" "clientA" 0 "tokenX"
    demoResult h
  have ha := (h1 1000 (by norm_num)).1
  have hb := h2 3601000 (by norm_num)
  constructor
  · simpa [demoResult] using ha
  · simpa [demoResult] using hb

/-- C5.  POST /token dispatch: a `grant_type` other than
`authorization_code` yields 400 `unsupported_grant_type`; with the right
grant type, a missing/empty `code` or `client_id` yields 400
`invalid_request`; a failing code exchange yields 400 `invalid_grant`; and
a successful exchange yields 200 with a body of exactly
`{access_token, token_type, expires_in, scope}` (the four fields of
`TokenResp.ok`). -/
theorem handleToken_response_cases (body : TokenRequestBody) (s : Store)
    (now : Nat) (tok : String) :
    (body.grant_type ≠ some "authorization_code" →
      handleToken "POST" body s now tok = (TokenResp.err "unsupported_grant_type", s) ∧
      (handleToken "POST" body s now tok).1.status = 400) ∧
    (body.grant_type = some "authorization_code" →
      (jsFalsy body.code = true ∨ jsFalsy body.client_id = true) →
      handleToken "POST" body s now tok = (TokenResp.err "invalid_request", s) ∧
      (handleToken "POST" body s now tok).1.status = 400) ∧
    (body.grant_type = some "authorization_code" →
      jsFalsy body.code = false → jsFalsy body.client_id = false →
      (exchangeCode s (body.code.getD "") (body.client_id.getD "") now tok).1 = none →
      (handleToken "POST" body s now tok).1 = TokenResp.err "invalid_grant" ∧
      (handleToken "POST" body s now tok).1.status = 400) ∧
    (∀ r : ExchangeResult, body.grant_type = some "authorization_code" →
      jsFalsy body.code = false → jsFalsy body.client_id = false →
      (exchangeCode s (body.code.getD "") (body.client_id.getD "") now tok).1 = some r →
      (handleToken "POST" body s now tok).1 =
        TokenResp.ok r.accessToken r.tokenType r.expiresIn r.scope ∧
      (handleToken "POST" body s now tok).1.status = 200) := by
  refine ⟨?_, ?_, ?_, ?_⟩
  · intro hg
    constructor
    · simp [handleToken, hg]
    · simp [handleToken, hg, TokenResp.status]
  · intro hg hfal
    have hor : (jsFalsy body.code || jsFalsy body.client_id) = true := by
      rcases hfal with h1 | h1 <;> simp [h1]
    constructor
    · simp [handleToken, hg, hor]
    · simp [handleToken, hg, hor, TokenResp.status]
  · intro hg hc hi hx
    have hor : (jsFalsy body.code || jsFalsy body.client_id) = false := by
      simp [hc, hi]
    constructor
    · simp [handleToken, hg, hor, hx]
    · simp [handleToken, hg, hor, hx, TokenResp.status]
  · intro r hg hc hi hx
    have hor : (jsFalsy body.code || jsFalsy body.client_id) = false := by
      simp [hc, hi]
    constructor
    · simp [handleToken, hg, hor, hx]
    · simp [handleToken, hg, hor, hx, TokenResp.status]

/-- C5 witness: one concrete request per branch — wrong grant type, missing
code, unknown code, and the demo store's valid `codeX`. -/
theorem handleToken_response_cases_witness :
    handleToken "POST"
        { grant_type := some "client_credentials", code := some "c",
          client_id := some "i", client_secret := none } demoStore 0 "t" =
      (TokenResp.err "unsupported_grant_type", demoStore) ∧
    handleToken "POST"
        { grant_type := some "authorization_code", code := none,
          client_id := some "i", client_secret := none } demoStore 0 "t" =
      (TokenResp.err "invalid_request", demoStore) ∧
    (handleToken "POST"
        { grant_type := some "authorization_code", code := some "unknown",
          client_id := some "clientA", client_secret := none } demoStore 0 "t").1 =
      TokenResp.err "invalid_grant" ∧
    (handleToken "POST"
        { grant_type := some "authorization_code", code := some "codeX",
          client_id := some "clientA", client_secret := none } demoStore 0 "tokenX").1 =
      TokenResp.ok "tokenX" "Bearer" 3600 "email profile" := by
  refine ⟨?_, ?_, ?_, ?_⟩
  · exact ((handleToken_response_cases
      { grant_type := some "client_credentials", code := some "c",
        client_id := some "i", client_secret := none } demoStore 0 "t").1
      (by decide)).1
  · exact ((handleToken_response_cases
      { grant_type := some "authorization_code", code := none,
        client_id := some "i", client_secret := none } demoStore 0 "t").2.1
      rfl (Or.inl (by decide))).1
  · exact ((handleToken_response_cases
      { grant_type := some "authorization_code", code := some "unknown",
        client_id := some "clientA", client_secret := none } demoStore 0 "t").2.2.1
      rfl (by decide) (by decide) (by decide)).1
  · have := ((handleToken_response_cases
      { grant_type := some "authorization_code", code := some "codeX",
        client_id := some "clientA", client_secret := none } demoStore 0 "tokenX").2.2.2
      demoResult rfl (by decide) (by decide) (by decide)).1
    simpa [demoResult] using this

/-- C6 counterexample.  The claim says GET /authorize returns 400 whenever
`client_id` or `redirect_uri` is missing.  On the main handler's
`handleAuthorize` this is false: with `client_id` present and
`redirect_uri` absent the response is a 302 redirect, not a 400 — only
`client_id` is ever checked. -/
theorem handleAuthorize_missing_redirect_cex :
    ((handleAuthorize "GET"
        { client_id := some "client1", redirect_uri := none, scope := none,
          state := none, response_type := none, code_challenge := none,
          code_challenge_method := none }
        (fun _ => none) "https://host.example" "google-id" none).1).status = 302 ∧
    ((handleAuthorize "GET"
        { client_id := some "client1", redirect_uri := none, scope := none,
          state := none, response_type := none, code_challenge := none,
          code_challenge_method := none }
        (fun _ => none) "https://host.example" "google-id" none).1).status ≠ 400 := by
  constructor
  · rfl
  · intro h
    exact absurd h (by decide)

/-- C6 amended.  The `authorize` case of the alternative JS handler behaves
as claimed: 400 whenever `client_id` or `redirect_uri` is missing/empty,
302 to the upstream authorize URL when both are present.  The main
handler's `handleAuthorize`, however, validates only `client_id`: it
returns 400 exactly when the parsed `client_id` is empty and otherwise
issues the 302 to the upstream URL even when `redirect_uri` is absent. -/
theorem authorize_validation_amended (cq rq stq : Option String) (s : Store)
    (now : Nat) (authState baseUrl gid : String) (hd : Option String)
    (q : AuthorizeQuery) :
    (cq.getD "" = "" ∨ rq.getD "" = "" →
      (authorizeCaseJs cq rq stq s now authState baseUrl gid hd).1 =
        AuthorizeResp.badRequest "Missing client_id or redirect_uri") ∧
    (¬(cq.getD "" = "" ∨ rq.getD "" = "") →
      (authorizeCaseJs cq rq stq s now authState baseUrl gid hd).1 =
        AuthorizeResp.redirect302 (getGoogleAuthUrl baseUrl authState gid hd)) ∧
    ((parseAuthRequest q).clientId = "" →
      (handleAuthorize "GET" q s baseUrl gid hd).1 =
        AuthorizeResp.badRequest "Invalid request: missing client_id") ∧
    ((parseAuthRequest q).clientId ≠ "" →
      (handleAuthorize "GET" q s baseUrl gid hd).1 =
        AuthorizeResp.redirect302 (getUpstreamAuthorizeUrl
          "https://accounts.google.com/o/oauth2/v2/auth"
          (String.intercalate " " GOOGLE_SCOPES) gid
          (baseUrl ++ "/api?path=callback")
          (encodeAuthRequest (parseAuthRequest q)) hd)) := by
  refine ⟨?_, ?_, ?_, ?_⟩
  · intro hmiss
    simp [authorizeCaseJs, hmiss]
  · intro hpres
    simp [authorizeCaseJs, hpres]
  · intro hempty
    simp [handleAuthorize, hempty]
  · intro hnonempty
    simp [handleAuthorize, hnonempty]

/-- C6 amended witness: the JS handler rejects a request missing
`redirect_uri` with 400 and accepts a complete one with 302; the main
handler 302-redirects even without `redirect_uri` and rejects an absent
`client_id` with 400. -/
theorem authorize_validation_amended_witness :
    (authorizeCaseJs (some "client1") none none (fun _ => none) 0 "st1"
        "https://host.example" "gid" none).1 =
      AuthorizeResp.badRequest "Missing client_id or redirect_uri" ∧
    (authorizeCaseJs (some "client1") (some "https://app.example/cb") none
        (fun _ => none) 0 "st1" "https://host.example" "gid" none).1 =
      AuthorizeResp.redirect302
        (getGoogleAuthUrl "https://host.example" "st1" "gid" none) ∧
    (handleAuthorize "GET"
        { client_id := none, redirect_uri := some "https://app.example/cb",
          scope := none, state := none, response_type := none,
          code_challenge := none, code_challenge_method := none }
        (fun _ => none) "https://host.example" "gid" none).1 =
      AuthorizeResp.badRequest "Invalid request: missing client_id" := by
  refine ⟨?_, ?_, ?_⟩
  · exact (authorize_validation_amended (some "client1") none none (fun _ => none) 0
      "st1" "https://host.example" "gid" none
      { client_id := none, redirect_uri := none, scope := none, state := none,
        response_type := none, code_challenge := none,
        code_challenge_method := none }).1 (Or.inr rfl)
  · exact (authorize_validation_amended (some "client1")
      (some "https://app.example/cb") none (fun _ => none) 0
      "st1" "https://host.example" "gid" none
      { client_id := none, redirect_uri := none, scope := none, state := none,
        response_type := none, code_challenge := none,
        code_challenge_method := none }).2.1 (by decide)
  · exact (authorize_validation_amended (some "client1") none none (fun _ => none) 0
      "st1" "https://host.example" "gid" none
      { client_id := none, redirect_uri := some "https://app.example/cb",
        scope := none, state := none, response_type := none,
        code_challenge := none, code_challenge_method := none }).2.2.1 (by decide)

/-- C7.  Looking up the clientId returned by `registerClient` immediately
after registration (or at any later time: client records carry no TTL)
returns the stored client record, whose redirect-URI list is exactly the
one passed in; and id generation is injective in the generated randomness
(`gtm_` ++ rand), so two registrations collide only if `randomBytes`
returns the same 16-byte string twice — uniqueness across the store's
lifetime reduces to collision-freedom of the generator. -/
theorem registerClient_lookup_and_unique (s : Store) (rus : List String)
    (name : String) (randId randSecret : String) (now now2 : Nat) :
    (lookupClient (registerClient s rus name randId randSecret now).2
        (registerClient s rus name randId randSecret now).1.1 now2).1 =
      some { clientId := generateClientId randId, clientSecret := randSecret,
             redirectUris := rus, name := name, createdAt := now } ∧
    (∀ r1 r2 : String, r1 ≠ r2 → generateClientId r1 ≠ generateClientId r2) := by
  constructor
  · simp [registerClient, lookupClient, getOAuthClient, storeOAuthClient,
      MemoryStorage.get, MemoryStorage.set, expiryOf, asClient]
  · intro r1 r2 hne heq
    apply hne
    have hdata : "gtm_".data ++ r1.data = "gtm_".data ++ r2.data := by
      have h2 := congrArg String.data heq
      simpa [String.data_append, generateClientId] using h2
    exact String.ext (List.append_cancel_left hdata)

/-- C7 witness: a concrete registration, looked up right away, returns the
registered redirect URIs, and two distinct random strings give two distinct
clientIds. -/
theorem registerClient_lookup_and_unique_witness :
    (lookupClient (registerClient (fun _ => none) ["https://app.example/cb"]
        "Test" "rand16" "secret32" 5).2
        (registerClient (fun _ => none) ["https://app.example/cb"]
          "Test" "rand16" "secret32" 5).1.1 99).1 =
      some { clientId := generateClientId "rand16", clientSecret := "secret32",
             redirectUris := ["https://app.example/cb"], name := "Test",
             createdAt := 5 } ∧
    generateClientId "r1" ≠ generateClientId "r2" := by
  obtain ⟨h1, h2⟩ := registerClient_lookup_and_unique (fun _ => none)
    ["https://app.example/cb"] "Test" "rand16" "secret32" 5 99
  exact ⟨h1, h2 "r1" "r2" (by decide)⟩

/-- C8.  Deleting a client and revoking a grant are frame-preserving on
access-token records: both leave every `oauth:token:*` entry untouched, so
`validateToken` returns the same result after either operation as before
it — neither invalidates issued tokens. -/
theorem delete_revoke_preserve_tokens (s : Store) (cid gid uid tokv : String)
    (now : Nat) :
    (validateToken (deleteOAuthClient s cid) tokv now).1 =
      (validateToken s tokv now).1 ∧
    (validateToken (revokeGrant s gid uid) tokv now).1 =
      (validateToken s tokv now).1 ∧
    (deleteOAuthClient s cid) ("oauth:token:" ++ tokv) =
      s ("oauth:token:" ++ tokv) ∧
    (revokeGrant s gid uid) ("oauth:token:" ++ tokv) =
      s ("oauth:token:" ++ tokv) := by
  have h1 : (deleteOAuthClient s cid) ("oauth:token:" ++ tokv) =
      s ("oauth:token:" ++ tokv) := by
    unfold deleteOAuthClient
    exact MemoryStorage.del_apply_ne s _ (tokenKey_ne_clientKey _ _)
  have h2 : (revokeGrant s gid uid) ("oauth:token:" ++ tokv) =
      s ("oauth:token:" ++ tokv) := by
    unfold revokeGrant
    rw [MemoryStorage.del_apply_ne _ _ (tokenKey_ne_userKey _ _),
        MemoryStorage.del_apply_ne _ _ (tokenKey_ne_grantKey _ _)]
  refine ⟨?_, ?_, h1, h2⟩
  · rw [validateToken_fst_eval, validateToken_fst_eval,
        MemoryStorage.get_fst_congr _ _ _ _ h1]
  · rw [validateToken_fst_eval, validateToken_fst_eval,
        MemoryStorage.get_fst_congr _ _ _ _ h2]

/-- C9.  The token exchange never consults the client secret: two POST
/token requests identical except in the `client_secret` field (present,
absent, or different) produce identical responses and identical stores.
The underlying `exchangeCode(code, clientId)` takes no secret at all. -/
theorem token_exchange_ignores_secret (method : String)
    (b1 b2 : TokenRequestBody) (s : Store) (now : Nat) (tok : String)
    (hg : b1.grant_type = b2.grant_type) (hc : b1.code = b2.code)
    (hi : b1.client_id = b2.client_id) :
    handleToken method b1 s now tok = handleToken method b2 s now tok := by
  obtain ⟨g1, c1, i1, sec1⟩ := b1
  obtain ⟨g2, c2, i2, sec2⟩ := b2
  change g1 = g2 at hg
  change c1 = c2 at hc
  change i1 = i2 at hi
  subst hg; subst hc; subst hi
  rfl

/-- C9 witness: supplying a secret or omitting it leaves the token response
unchanged on a concrete exchange. -/
theorem token_exchange_ignores_secret_witness :
    handleToken "POST"
        { grant_type := some "authorization_code", code := some "codeX",
          client_id := some "clientA", client_secret := some "secret-1" }
        demoStore 0 "tokenX" =
      handleToken "POST"
        { grant_type := some "authorization_code", code := some "codeX",
          client_id := some "clientA", client_secret := none }
        demoStore 0 "tokenX" :=
  token_exchange_ignores_secret "POST" _ _ demoStore 0 "tokenX" rfl rfl rfl

/-- C10.  Neither the authorize nor the callback flow consults the client
registry: `handleAuthorize`'s response is the same whatever the store
contains, and for any non-empty `client_id` (registered or not, whatever
`redirect_uri` holds) it is the 302 to the upstream URL;
`completeAuthorization`'s redirect target is likewise store-independent and
is always the request's own `redirect_uri` with `code` (and the original
`state`, when present) appended — no lookup against registered clients or
their redirect-URI allow-list ever happens. -/
theorem authorize_callback_ignore_registry (m : String) (q : AuthorizeQuery)
    (s1 s2 : Store) (baseUrl gid : String) (hd : Option String)
    (request : AuthRequest) (userId : String) (scope : List String)
    (props : UserProps) (code grantId : String) (now : Nat) :
    (handleAuthorize m q s1 baseUrl gid hd).1 =
      (handleAuthorize m q s2 baseUrl gid hd).1 ∧
    (completeAuthorization s1 request userId scope props code grantId now).1 =
      (completeAuthorization s2 request userId scope props code grantId now).1 ∧
    ((parseAuthRequest q).clientId ≠ "" →
      (handleAuthorize "GET" q s1 baseUrl gid hd).1 =
        AuthorizeResp.redirect302 (getUpstreamAuthorizeUrl
          "https://accounts.google.com/o/oauth2/v2/auth"
          (String.intercalate " " GOOGLE_SCOPES) gid
          (baseUrl ++ "/api?path=callback")
          (encodeAuthRequest (parseAuthRequest q)) hd)) ∧
    (completeAuthorization s1 request userId scope props code grantId now).1 =
      addQueryParams request.redirectUri ([("code", code)] ++
        (match request.state with | some st => [("state", st)] | none => [])) := by
  refine ⟨?_, rfl, ?_, rfl⟩
  · simp only [handleAuthorize]
    split_ifs <;> rfl
  · intro h
    simp [handleAuthorize, h]

/-- C10 witness: with an unregistered `client_id` in an empty store, the
authorize endpoint still 302-redirects upstream, and the callback completes
to the request's own redirect URI. -/
theorem authorize_callback_ignore_registry_witness :
    (handleAuthorize "GET"
        { client_id := some "client1", redirect_uri := some "https://app.example/cb",
          scope := none, state := none, response_type := none,
          code_challenge := none, code_challenge_method := none }
        (fun _ => none) "https://host.example" "gid" none).1 =
      AuthorizeResp.redirect302 (getUpstreamAuthorizeUrl
        "https://accounts.google.com/o/oauth2/v2/auth"
        (String.intercalate " " GOOGLE_SCOPES) "gid"
        ("https://host.example" ++ "/api?path=callback")
        (encodeAuthRequest (parseAuthRequest
          { client_id := some "client1", redirect_uri := some "https://app.example/cb",
            scope := none, state := none, response_type := none,
            code_challenge := none, code_challenge_method := none })) none) ∧
    (completeAuthorization (fun _ => none) demoAuthRequest "user-1"
        ["email", "profile"] demoProps "codeX" "grant1" 0).1 =
      addQueryParams demoAuthRequest.redirectUri
        ([("code", "codeX")] ++ [("state", "xyz")]) := by
  obtain ⟨h1, h2, h3, h4⟩ := authorize_callback_ignore_registry "GET"
    { client_id := some "client1", redirect_uri := some "https://app.example/cb",
      scope := none, state := none, response_type := none,
      code_challenge := none, code_challenge_method := none }
    (fun _ => none) (fun _ => none) "https://host.example" "gid" none
    demoAuthRequest "user-1" ["email", "profile"] demoProps "codeX" "grant1" 0
  refine ⟨h3 (by decide), ?_⟩
  rw [h4]
  rfl
